import Mathlib

/-!
Verification of the resilient key-value client factory of `ksarpe/redis-golang`
(package `database`): `NewClient`, `createTLSConfig`, `Client.Do`, `Client.Close`.

The Go code is shallowly embedded. External effects (file reads, PEM parsing,
key-pair loading, pool construction, pool commands, pool close) are supplied by
an oracle record `World`; every embedded function returns its Go result together
with a `Trace` of the observable effects it performed, in order. Durations are
integers counting nanoseconds, exactly as Go's `time.Duration`.
-/

namespace RedisGolang

/-- Go duration unit: `time.Millisecond` in nanoseconds. -/
def timeMillisecond : Int := 1000000

/-- Go duration unit: `time.Second` in nanoseconds. -/
def timeSecond : Int := 1000000000

/-- Go errors: `errors.New` gives a leaf message, `fmt.Errorf("...%w", err)`
wraps an inner error under a message prefix. -/
inductive GoErr where
  | mk (msg : String)
  | wrap (msg : String) (inner : GoErr)
deriving DecidableEq, Repr

/-- Source: `var errCACertificate = errors.New("unable to append the CA certificate")`. -/
def errCACertificate : GoErr := .mk "unable to append the CA certificate"

/-- Source: `var errTypeAssertion = errors.New("type assertion to *net.Dialer failed")`. -/
def errTypeAssertion : GoErr := .mk "type assertion to *net.Dialer failed"

/-- Source constants block: `PingInterval = -1` (a `time.Duration`, in ns). -/
def PingInterval : Int := -1

/-- Source constants block: `MinReconnectInterval = 125 * time.Millisecond`. -/
def MinReconnectInterval : Int := 125 * timeMillisecond

/-- Source constants block: `MaxReconnectInterval = 4 * time.Second`. -/
def MaxReconnectInterval : Int := 4 * timeSecond

/-- Source constants block: `PoolSize = 1`. -/
def PoolSize : Int := 1

/-- Model of a Go `context.Context`: only the deadline is observable here.
`context.Background()` has no deadline. -/
structure GoContext where
  deadline : Option Int
deriving DecidableEq, Repr

/-- Model of `context.Background()`: a context with no deadline. -/
def GoContext.background : GoContext := ⟨none⟩

/-- A context is bounded when it carries a deadline. -/
def GoContext.isBounded (c : GoContext) : Bool := c.deadline.isSome

/-- Source: `type ClientOptions struct` (TLS, ACL and timeout parameters). -/
structure ClientOptions where
  TLSEnabled : Bool
  CaCert : String
  ClientCert : String
  ClientKey : String
  SubjectCommonName : String
  ACLEnabled : Bool
  Username : String
  Password : String
  DialConnectTimeout : Int
  DialWriteTimeout : Int
  DialReadTimeout : Int
deriving DecidableEq, Repr

/-- Model of `tls.Config` restricted to the fields the source touches:
`RootCAs` (the PEM bytes appended into the cert pool, `none` for Go nil),
`Certificates` (each certificate identified by its cert/key path pair, as
produced by `tls.LoadX509KeyPair`), and `ServerName` (zero value `""`). -/
structure TLSConfig where
  RootCAs : Option String
  Certificates : List (String × String)
  ServerName : String
deriving DecidableEq, Repr

/-- Model of `net.Dialer`: only the `Timeout` field is set by the source. -/
structure NetDialer where
  Timeout : Int
deriving DecidableEq, Repr

/-- The dynamic type stored in `radix.Dialer.NetDialer`: either a plain
`*net.Dialer` or a `*tls.Dialer` wrapping one (whose `Config` pointer may be
nil, hence `Option`). -/
inductive DialerNet where
  | net (d : NetDialer)
  | tls (nd : NetDialer) (cfg : Option TLSConfig)
deriving DecidableEq, Repr

/-- Model of `radix.Dialer` restricted to the fields the source sets. -/
structure Dialer where
  AuthUser : String
  AuthPass : String
  NetDialer : DialerNet
deriving DecidableEq, Repr

/-- The Go type assertion `dialer.NetDialer.(*net.Dialer)`: succeeds exactly
when the stored value is a plain `*net.Dialer`. -/
def DialerNet.asNetDialer : DialerNet → Option NetDialer
  | .net d => some d
  | .tls _ _ => none

/-- Model of `radix.PoolConfig` restricted to the fields the source sets. -/
structure PoolConfig where
  Dialer : Dialer
  Size : Int
  PingInterval : Int
  MinReconnectInterval : Int
  MaxReconnectInterval : Int
deriving DecidableEq, Repr

/-- A constructed radix pool: remembers the configuration and address it was
built from. -/
structure RadixPool where
  cfg : PoolConfig
  addr : String
deriving DecidableEq, Repr

/-- Source: `type Client struct { pool radix.Client }`. -/
structure Client where
  pool : RadixPool
deriving DecidableEq, Repr

/-- Model of a `radix.Action` built by `radix.Cmd(rcv, args...)`: the command
keyword sequence sent to the store. -/
structure Action where
  args : List String
deriving DecidableEq, Repr

/-- Model of `radix.Cmd(nil, args...)`. -/
def radixCmd (args : List String) : Action := ⟨args⟩

/-- The textual form of an action, as interpolated by `fmt.Errorf("...%s", action)`. -/
def Action.text (a : Action) : String := String.intercalate " " a.args

/-- Observable effects, in program order. `poolNew` records the configuration a
pool-construction attempt used (a network connection attempt); `poolDo` records
a command sent through the pool together with the context it ran under;
`poolClose` records a close of the pool; `fileRead` records a local file read. -/
inductive Event where
  | fileRead (path : String)
  | poolNew (cfg : PoolConfig) (addr : String)
  | poolDo (ctx : GoContext) (args : List String)
  | poolClose
deriving DecidableEq, Repr

/-- An effect trace. -/
abbrev Trace := List Event

/-- Oracle for all external effects: what the filesystem, the PEM parser, the
key-pair loader and the remote store do on each request. `poolDo args = none`
means the command succeeds; `some e` means it fails with message `e`. -/
structure World where
  readFile : String → Except String String
  appendCertsFromPEM : String → Bool
  loadX509KeyPair : String → String → Except String Unit
  poolNew : String → Except String Unit
  poolDo : List String → Option String
  poolClose : Option String

/-- Index of the last occurrence of `c` in `cs` (Go's `last(hostport, ':')`). -/
def lastIdx (cs : List Char) (c : Char) : Option Nat :=
  match List.findIdx? (fun x => x == c) cs.reverse with
  | none => none
  | some k => some (cs.length - 1 - k)

/-- Index of the first occurrence of `c` in `cs` (Go's `byteIndex`). -/
def firstIdx (cs : List Char) (c : Char) : Option Nat :=
  List.findIdx? (fun x => x == c) cs

/-- Model of Go's `net.SplitHostPort`. Error strings follow
`(&AddrError{Err: why, Addr: addr}).Error()`, i.e. `"address " + addr + ": " + why`. -/
def splitHostPort (hostport : String) : Except String (String × String) :=
  let cs := hostport.toList
  let addrErr := fun (why : String) =>
    (Except.error ("address " ++ hostport ++ ": " ++ why) : Except String (String × String))
  match lastIdx cs ':' with
  | none => addrErr "missing port in address"
  | some i =>
    let afterHost :=
      fun (host : List Char) (j k : Nat) =>
        if (firstIdx (cs.drop j) '[').isSome then
          addrErr "missing brackets in address"
        else if (firstIdx (cs.drop k) ']').isSome then
          addrErr "unexpected ']' in address"
        else
          Except.ok (String.mk host, String.mk (cs.drop (i + 1)))
    if cs.headD ' ' = '[' then
      match firstIdx cs ']' with
      | none => addrErr "missing ']' in address"
      | some e =>
        if e + 1 = cs.length then
          addrErr "missing port in address"
        else if e + 1 = i then
          afterHost ((cs.take e).drop 1) 1 (e + 1)
        else if cs.getD (e + 1) ' ' = ':' then
          addrErr "too many colons in address"
        else
          addrErr "missing port in address"
    else
      let host := cs.take i
      if (firstIdx host ':').isSome then
        addrErr "too many colons in address"
      else
        afterHost host 0 0

/-- Source: `func createTLSConfig(opts *ClientOptions) (*tls.Config, error)`.
Returns the (possibly nil) config pointer, the error, and the file reads
performed (`os.ReadFile` on the CA path; `tls.LoadX509KeyPair` reads the cert
and key files). -/
def createTLSConfig (w : World) (opts : ClientOptions) :
    (Option TLSConfig × Option GoErr) × Trace :=
  match w.readFile opts.CaCert with
  | .error e =>
    ((none, some (.wrap ("failed to read file from " ++ opts.CaCert ++ ", err: ") (.mk e))),
      [.fileRead opts.CaCert])
  | .ok certBytes =>
    if w.appendCertsFromPEM certBytes then
      let tlsconfig : TLSConfig :=
        { RootCAs := some certBytes, Certificates := [], ServerName := "" }
      match w.loadX509KeyPair opts.ClientCert opts.ClientKey with
      | .error e =>
        ((some tlsconfig,
          some (.wrap ("failed to read and parse key " ++ opts.ClientKey ++ " from " ++
            opts.ClientCert ++ ", err: ") (.mk e))),
          [.fileRead opts.CaCert, .fileRead opts.ClientCert, .fileRead opts.ClientKey])
      | .ok _ =>
        let withCert : TLSConfig :=
          { tlsconfig with Certificates := [(opts.ClientCert, opts.ClientKey)] }
        let final : TLSConfig :=
          if opts.SubjectCommonName ≠ "" then
            { withCert with ServerName := opts.SubjectCommonName }
          else withCert
        ((some final, none),
          [.fileRead opts.CaCert, .fileRead opts.ClientCert, .fileRead opts.ClientKey])
    else
      ((none, some errCACertificate), [.fileRead opts.CaCert])

/-- Equality on `Except` results is decidable componentwise. -/
instance {ε α : Type} [DecidableEq ε] [DecidableEq α] : DecidableEq (Except ε α) := fun a b =>
  match a, b with
  | .error e, .error f =>
    if h : e = f then .isTrue (by rw [h]) else .isFalse (fun hc => h (Except.error.inj hc))
  | .error _, .ok _ => .isFalse (fun hc => Except.noConfusion hc)
  | .ok _, .error _ => .isFalse (fun hc => Except.noConfusion hc)
  | .ok a, .ok b =>
    if h : a = b then .isTrue (by rw [h]) else .isFalse (fun hc => h (Except.ok.inj hc))

/-- Source: `func (c *Client) Close() error`. -/
def Client.Close (w : World) (_c : Client) : Option GoErr × Trace :=
  (match w.poolClose with
   | some e => some (.wrap "failed to close connection, err: " (.mk e))
   | none => none,
   [.poolClose])

/-- Source: `func (c *Client) Do(action radix.Action) error`. The pool
operation runs under `context.Background()`; a failure is wrapped with the
textual form of the action. -/
def Client.Do (w : World) (_c : Client) (action : Action) : Option GoErr × Trace :=
  (match w.poolDo action.args with
   | some e => some (.wrap ("failed to perform action " ++ action.text ++ ", err: ") (.mk e))
   | none => none,
   [.poolDo GoContext.background action.args])

/-- Source: `pool, err := poolCfg.New(context.Background(), "tcp", addr)`. -/
def PoolConfig.New (w : World) (poolCfg : PoolConfig) (addr : String) :
    Except String RadixPool × Trace :=
  (match w.poolNew addr with
   | .error e => .error e
   | .ok _ => .ok ⟨poolCfg, addr⟩,
   [.poolNew poolCfg addr])

/-- The `dialer := radix.Dialer{...}` literal built by `NewClient`. -/
def newClientDialer (clientOpts : ClientOptions) : Dialer :=
  { AuthUser := clientOpts.Username
    AuthPass := clientOpts.Password
    NetDialer := .net { Timeout := clientOpts.DialConnectTimeout } }

/-- The `poolCfg := radix.PoolConfig{...}` literal built by `NewClient`. -/
def newClientPoolConfig (dialer : Dialer) : PoolConfig :=
  { Dialer := dialer
    Size := PoolSize
    PingInterval := PingInterval
    MinReconnectInterval := MinReconnectInterval
    MaxReconnectInterval := MaxReconnectInterval }

/-- The `if clientOpts.TLSEnabled { ... }` block of `NewClient`: on success it
yields the dialer to hand to the pool configuration (wrapped in a TLS dialer
when TLS is enabled) and the file reads performed. -/
def newClientTLSStep (w : World) (clientOpts : ClientOptions) (dialer : Dialer) :
    Except GoErr Dialer × Trace :=
  if clientOpts.TLSEnabled then
    match createTLSConfig w clientOpts with
    | ((_, some e), tr) => (.error e, tr)
    | ((tlsConfig, none), tr) =>
      match dialer.NetDialer.asNetDialer with
      | none => (.error errTypeAssertion, tr)
      | some netDialer =>
        (.ok { dialer with NetDialer := .tls netDialer tlsConfig }, tr)
  else
    (.ok dialer, [])

/-- The body of `RadixV4ClientsProducer.NewClient` from the `dialer :=` line
on, parameterised by the `clientOpts` record the method builds at its top. -/
def NewClientWith (w : World) (addr : String) (clientOpts : ClientOptions) :
    Except GoErr Client × Trace :=
  match newClientTLSStep w clientOpts (newClientDialer clientOpts) with
  | (.error e, tr0) => (.error e, tr0)
  | (.ok dialer, tr0) =>
    let pooled := PoolConfig.New w (newClientPoolConfig dialer) addr
    match pooled.1 with
    | .error e =>
      (.error (.wrap "radix poolCfg.New err: " (.mk e)), tr0 ++ pooled.2)
    | .ok pool =>
      let c : Client := ⟨pool⟩
      match splitHostPort addr with
      | .error e =>
        (.error (.wrap "failed split address, closing client connection, err:" (.mk e)),
          tr0 ++ pooled.2 ++ (Client.Close w c).2)
      | .ok (ipAddr, _) =>
        let done := Client.Do w c (radixCmd ["CONFIG", "SET", "cluster-announce-ip", ipAddr])
        match done.1 with
        | some e =>
          (.error (.wrap "failed to CONFIG SET, closing client connection, err:" e),
            tr0 ++ pooled.2 ++ done.2 ++ (Client.Close w c).2)
        | none =>
          if clientOpts.ACLEnabled then
            let done2 := Client.Do w c (radixCmd ["CONFIG", "SET", "masterauth", clientOpts.Password])
            match done2.1 with
            | some e =>
              (.error (.wrap "failed to CONFIG SET, closing client connection, err:" e),
                tr0 ++ pooled.2 ++ done.2 ++ done2.2 ++ (Client.Close w c).2)
            | none =>
              (.ok c, tr0 ++ pooled.2 ++ done.2 ++ done2.2)
          else
            (.ok c, tr0 ++ pooled.2 ++ done.2)

/-- The `clientOpts := ClientOptions{...}` literal that
`RadixV4ClientsProducer.NewClient` builds internally. -/
def NewClientDefaultOptions : ClientOptions :=
  { TLSEnabled := false
    CaCert := ""
    ClientCert := ""
    ClientKey := ""
    SubjectCommonName := ""
    ACLEnabled := false
    Username := ""
    Password := ""
    DialConnectTimeout := 10 * timeSecond
    DialWriteTimeout := 1 * timeSecond
    DialReadTimeout := 1 * timeSecond }

/-- Source: `type RadixV4ClientsProducer struct{}`. -/
structure RadixV4ClientsProducer where
deriving DecidableEq, Repr

/-- Source: `func (prod RadixV4ClientsProducer) NewClient(addr string)
(ClientInterface, error)`: builds the fixed options record and runs the body. -/
def RadixV4ClientsProducer.NewClient (_prod : RadixV4ClientsProducer) (w : World)
    (addr : String) : Except GoErr Client × Trace :=
  NewClientWith w addr NewClientDefaultOptions

/-- The administrative command argument lists appearing in a trace, in order. -/
def cmdArgs (tr : Trace) : List (List String) :=
  tr.filterMap fun e =>
    match e with
    | .poolDo _ args => some args
    | _ => none

/-- Whether a trace contains a pool-construction attempt. -/
def poolBuilt (tr : Trace) : Bool :=
  tr.any fun e =>
    match e with
    | .poolNew _ _ => true
    | _ => false

/-- Whether a trace contains a pool close. -/
def poolClosed (tr : Trace) : Bool :=
  tr.any fun e =>
    match e with
    | .poolClose => true
    | _ => false

/-- Whether a trace contains a file read. -/
def readsFile (tr : Trace) : Bool :=
  tr.any fun e =>
    match e with
    | .fileRead _ => true
    | _ => false

/-- Whether a client-construction result is a success. -/
def resultOk (r : Except GoErr Client) : Bool :=
  match r with
  | .ok _ => true
  | .error _ => false

/-- Whether a client-construction result is exactly the `errTypeAssertion` failure. -/
def isTypeAssertionErr (r : Except GoErr Client) : Bool :=
  match r with
  | .error e => decide (e = errTypeAssertion)
  | .ok _ => false

/-- Whether an event is a local file read. -/
def Event.isFileRead : Event → Bool
  | .fileRead _ => true
  | _ => false

/-- A world in which every external effect succeeds. -/
def worldOK : World :=
  { readFile := fun _ => .ok "PEMDATA"
    appendCertsFromPEM := fun _ => true
    loadX509KeyPair := fun _ _ => .ok ()
    poolNew := fun _ => .ok ()
    poolDo := fun _ => none
    poolClose := none }

/-- A world in which every store command fails remotely. -/
def worldFailDo : World := { worldOK with poolDo := fun _ => some "boom" }

/-- A world in which only the `masterauth` command fails remotely. -/
def worldFailMasterauth : World :=
  { worldOK with
    poolDo := fun args => if args.take 3 == ["CONFIG", "SET", "masterauth"] then some "boom" else none }

/-- A world in which reading the CA certificate file fails. -/
def worldReadErr : World :=
  { worldOK with readFile := fun p => .error ("open " ++ p ++ ": no such file or directory") }

/-- A world in which the CA file reads fine but holds no valid PEM certificate. -/
def worldParseErr : World := { worldOK with appendCertsFromPEM := fun _ => false }

/-- A world in which loading the client certificate/key pair fails. -/
def worldKeyErr : World :=
  { worldOK with loadX509KeyPair := fun _ _ => .error "tls: failed to find any PEM data" }

/-- Options enabling TLS, for exercising `createTLSConfig` and the TLS branch. -/
def tlsOptions : ClientOptions :=
  { NewClientDefaultOptions with
    TLSEnabled := true
    CaCert := "/etc/ssl/ca.pem"
    ClientCert := "/etc/ssl/client.pem"
    ClientKey := "/etc/ssl/client.key"
    SubjectCommonName := "store.example" }

/-- A concrete client handle, for exercising the facade methods. -/
def demoClient : Client :=
  ⟨⟨newClientPoolConfig (newClientDialer NewClientDefaultOptions), "db:6379"⟩⟩

/-- Branch lemma: `createTLSConfig` when reading the CA file fails. -/
theorem createTLSConfig_read_err (w : World) (opts : ClientOptions) (e : String)
    (h : w.readFile opts.CaCert = .error e) :
    createTLSConfig w opts =
      ((none, some (.wrap ("failed to read file from " ++ opts.CaCert ++ ", err: ") (.mk e))),
        [.fileRead opts.CaCert]) := by
  unfold createTLSConfig
  rw [h]

/-- Branch lemma: `createTLSConfig` when the CA bytes parse to zero certificates. -/
theorem createTLSConfig_parse_err (w : World) (opts : ClientOptions) (certBytes : String)
    (hr : w.readFile opts.CaCert = .ok certBytes)
    (hp : w.appendCertsFromPEM certBytes = false) :
    createTLSConfig w opts = ((none, some errCACertificate), [.fileRead opts.CaCert]) := by
  unfold createTLSConfig
  rw [hr]
  simp [hp]

/-- Branch lemma: `createTLSConfig` when the client cert/key pair fails to load. -/
theorem createTLSConfig_key_err (w : World) (opts : ClientOptions) (certBytes e : String)
    (hr : w.readFile opts.CaCert = .ok certBytes)
    (hp : w.appendCertsFromPEM certBytes = true)
    (hk : w.loadX509KeyPair opts.ClientCert opts.ClientKey = .error e) :
    createTLSConfig w opts =
      ((some { RootCAs := some certBytes, Certificates := [], ServerName := "" },
        some (.wrap ("failed to read and parse key " ++ opts.ClientKey ++ " from " ++
          opts.ClientCert ++ ", err: ") (.mk e))),
        [.fileRead opts.CaCert, .fileRead opts.ClientCert, .fileRead opts.ClientKey]) := by
  unfold createTLSConfig
  rw [hr]
  simp [hp, hk]

/-- Branch lemma: `createTLSConfig` on full success. -/
theorem createTLSConfig_ok (w : World) (opts : ClientOptions) (certBytes : String)
    (hr : w.readFile opts.CaCert = .ok certBytes)
    (hp : w.appendCertsFromPEM certBytes = true)
    (hk : w.loadX509KeyPair opts.ClientCert opts.ClientKey = .ok ()) :
    createTLSConfig w opts =
      ((some { RootCAs := some certBytes
               Certificates := [(opts.ClientCert, opts.ClientKey)]
               ServerName := if opts.SubjectCommonName ≠ "" then opts.SubjectCommonName else "" },
        none),
        [.fileRead opts.CaCert, .fileRead opts.ClientCert, .fileRead opts.ClientKey]) := by
  unfold createTLSConfig
  rw [hr]
  simp only [hp, hk, if_true]
  split <;> simp_all

/-- Every event `createTLSConfig` emits is a file read. -/
theorem createTLSConfig_trace_fileOnly (w : World) (opts : ClientOptions) :
    ((createTLSConfig w opts).2).all Event.isFileRead = true := by
  unfold createTLSConfig
  cases hr : w.readFile opts.CaCert with
  | error e => simp [Event.isFileRead]
  | ok certBytes =>
    cases hp : w.appendCertsFromPEM certBytes with
    | false => simp [hp, Event.isFileRead]
    | true =>
      cases hk : w.loadX509KeyPair opts.ClientCert opts.ClientKey with
      | error e => simp [hp, hk, Event.isFileRead]
      | ok u => simp [hp, hk, Event.isFileRead]

/-- A trace of file reads issues no commands, builds no pool, closes no pool. -/
theorem fileOnly_trace_facts (tr : Trace) (h : tr.all Event.isFileRead = true) :
    cmdArgs tr = [] ∧ poolBuilt tr = false ∧ poolClosed tr = false := by
  induction tr with
  | nil => simp [cmdArgs, poolBuilt, poolClosed]
  | cons e rest ih =>
    simp only [List.all_cons, Bool.and_eq_true] at h
    obtain ⟨he, hrest⟩ := h
    obtain ⟨h1, h2, h3⟩ := ih hrest
    cases e <;> simp_all [Event.isFileRead, cmdArgs, poolBuilt, poolClosed]

/-- The TLS step is the identity when TLS is disabled. -/
theorem newClientTLSStep_disabled (w : World) (opts : ClientOptions) (d : Dialer)
    (h : opts.TLSEnabled = false) :
    newClientTLSStep w opts d = (.ok d, []) := by
  unfold newClientTLSStep
  simp [h]

/-- The TLS step propagates a `createTLSConfig` error unchanged. -/
theorem newClientTLSStep_err (w : World) (opts : ClientOptions) (d : Dialer)
    (cfgOpt : Option TLSConfig) (e : GoErr) (tr : Trace)
    (hT : opts.TLSEnabled = true)
    (hc : createTLSConfig w opts = ((cfgOpt, some e), tr)) :
    newClientTLSStep w opts d = (.error e, tr) := by
  unfold newClientTLSStep
  rw [hT, if_pos rfl, hc]

/-- On the dialer `NewClient` just built, the TLS step's type assertion always
succeeds, so a successful `createTLSConfig` yields the TLS-wrapped dialer. -/
theorem newClientTLSStep_ok (w : World) (opts : ClientOptions)
    (cfgOpt : Option TLSConfig) (tr : Trace)
    (hT : opts.TLSEnabled = true)
    (hc : createTLSConfig w opts = ((cfgOpt, none), tr)) :
    newClientTLSStep w opts (newClientDialer opts) =
      (.ok { newClientDialer opts with
              NetDialer := .tls { Timeout := opts.DialConnectTimeout } cfgOpt }, tr) := by
  unfold newClientTLSStep
  rw [hT, if_pos rfl, hc]
  simp [newClientDialer, DialerNet.asNetDialer]

/-- Run lemma: pool construction fails. -/
theorem NewClientWith_pool_err (w : World) (addr : String) (opts : ClientOptions)
    (dialer : Dialer) (tr0 : Trace) (e : String)
    (hstep : newClientTLSStep w opts (newClientDialer opts) = (.ok dialer, tr0))
    (hpool : w.poolNew addr = .error e) :
    NewClientWith w addr opts =
      (.error (.wrap "radix poolCfg.New err: " (.mk e)),
        tr0 ++ [.poolNew (newClientPoolConfig dialer) addr]) := by
  unfold NewClientWith
  rw [hstep]
  simp [PoolConfig.New, hpool]

/-- Run lemma: pool construction succeeds but address splitting fails. -/
theorem NewClientWith_split_err (w : World) (addr : String) (opts : ClientOptions)
    (dialer : Dialer) (tr0 : Trace) (e : String)
    (hstep : newClientTLSStep w opts (newClientDialer opts) = (.ok dialer, tr0))
    (hpool : w.poolNew addr = .ok ())
    (hsplit : splitHostPort addr = .error e) :
    NewClientWith w addr opts =
      (.error (.wrap "failed split address, closing client connection, err:" (.mk e)),
        tr0 ++ [.poolNew (newClientPoolConfig dialer) addr, .poolClose]) := by
  unfold NewClientWith
  rw [hstep]
  simp [PoolConfig.New, hpool, hsplit, Client.Close]

/-- Run lemma: the `cluster-announce-ip` command fails. -/
theorem NewClientWith_announce_err (w : World) (addr host port : String) (opts : ClientOptions)
    (dialer : Dialer) (tr0 : Trace) (e : String)
    (hstep : newClientTLSStep w opts (newClientDialer opts) = (.ok dialer, tr0))
    (hpool : w.poolNew addr = .ok ())
    (hsplit : splitHostPort addr = .ok (host, port))
    (hcmd : w.poolDo ["CONFIG", "SET", "cluster-announce-ip", host] = some e) :
    NewClientWith w addr opts =
      (.error (.wrap "failed to CONFIG SET, closing client connection, err:"
          (.wrap ("failed to perform action " ++
            Action.text (radixCmd ["CONFIG", "SET", "cluster-announce-ip", host]) ++
            ", err: ") (.mk e))),
        tr0 ++ [.poolNew (newClientPoolConfig dialer) addr,
          .poolDo GoContext.background ["CONFIG", "SET", "cluster-announce-ip", host],
          .poolClose]) := by
  unfold NewClientWith
  rw [hstep]
  simp [PoolConfig.New, hpool, hsplit, Client.Do, Client.Close, radixCmd, hcmd]

/-- Run lemma: ACL enabled and the `masterauth` command fails. -/
theorem NewClientWith_masterauth_err (w : World) (addr host port : String) (opts : ClientOptions)
    (dialer : Dialer) (tr0 : Trace) (e : String)
    (hstep : newClientTLSStep w opts (newClientDialer opts) = (.ok dialer, tr0))
    (hpool : w.poolNew addr = .ok ())
    (hsplit : splitHostPort addr = .ok (host, port))
    (hcmd1 : w.poolDo ["CONFIG", "SET", "cluster-announce-ip", host] = none)
    (hacl : opts.ACLEnabled = true)
    (hcmd2 : w.poolDo ["CONFIG", "SET", "masterauth", opts.Password] = some e) :
    NewClientWith w addr opts =
      (.error (.wrap "failed to CONFIG SET, closing client connection, err:"
          (.wrap ("failed to perform action " ++
            Action.text (radixCmd ["CONFIG", "SET", "masterauth", opts.Password]) ++
            ", err: ") (.mk e))),
        tr0 ++ [.poolNew (newClientPoolConfig dialer) addr,
          .poolDo GoContext.background ["CONFIG", "SET", "cluster-announce-ip", host],
          .poolDo GoContext.background ["CONFIG", "SET", "masterauth", opts.Password],
          .poolClose]) := by
  unfold NewClientWith
  rw [hstep]
  simp [PoolConfig.New, hpool, hsplit, Client.Do, Client.Close, radixCmd, hcmd1, hacl, hcmd2]

/-- Run lemma: success with ACL disabled. -/
theorem NewClientWith_ok_noacl (w : World) (addr host port : String) (opts : ClientOptions)
    (dialer : Dialer) (tr0 : Trace)
    (hstep : newClientTLSStep w opts (newClientDialer opts) = (.ok dialer, tr0))
    (hpool : w.poolNew addr = .ok ())
    (hsplit : splitHostPort addr = .ok (host, port))
    (hcmd1 : w.poolDo ["CONFIG", "SET", "cluster-announce-ip", host] = none)
    (hacl : opts.ACLEnabled = false) :
    NewClientWith w addr opts =
      (.ok ⟨⟨newClientPoolConfig dialer, addr⟩⟩,
        tr0 ++ [.poolNew (newClientPoolConfig dialer) addr,
          .poolDo GoContext.background ["CONFIG", "SET", "cluster-announce-ip", host]]) := by
  unfold NewClientWith
  rw [hstep]
  simp [PoolConfig.New, hpool, hsplit, Client.Do, radixCmd, hcmd1, hacl]

/-- Run lemma: success with ACL enabled. -/
theorem NewClientWith_ok_acl (w : World) (addr host port : String) (opts : ClientOptions)
    (dialer : Dialer) (tr0 : Trace)
    (hstep : newClientTLSStep w opts (newClientDialer opts) = (.ok dialer, tr0))
    (hpool : w.poolNew addr = .ok ())
    (hsplit : splitHostPort addr = .ok (host, port))
    (hcmd1 : w.poolDo ["CONFIG", "SET", "cluster-announce-ip", host] = none)
    (hacl : opts.ACLEnabled = true)
    (hcmd2 : w.poolDo ["CONFIG", "SET", "masterauth", opts.Password] = none) :
    NewClientWith w addr opts =
      (.ok ⟨⟨newClientPoolConfig dialer, addr⟩⟩,
        tr0 ++ [.poolNew (newClientPoolConfig dialer) addr,
          .poolDo GoContext.background ["CONFIG", "SET", "cluster-announce-ip", host],
          .poolDo GoContext.background ["CONFIG", "SET", "masterauth", opts.Password]]) := by
  unfold NewClientWith
  rw [hstep]
  simp [PoolConfig.New, hpool, hsplit, Client.Do, radixCmd, hcmd1, hacl, hcmd2]

/-- Run lemma: the TLS step fails, so `NewClient` stops before pool creation. -/
theorem NewClientWith_tls_err (w : World) (addr : String) (opts : ClientOptions)
    (e : GoErr) (tr0 : Trace)
    (hstep : newClientTLSStep w opts (newClientDialer opts) = (.error e, tr0)) :
    NewClientWith w addr opts = (.error e, tr0) := by
  unfold NewClientWith
  rw [hstep]

/-- Every event the TLS step emits is a file read. -/
theorem newClientTLSStep_trace_fileOnly (w : World) (opts : ClientOptions) (d : Dialer) :
    ((newClientTLSStep w opts d).2).all Event.isFileRead = true := by
  unfold newClientTLSStep
  cases hT : opts.TLSEnabled with
  | false => simp
  | true =>
    rcases hc : createTLSConfig w opts with ⟨⟨cfgOpt, errOpt⟩, tr⟩
    have hfile := createTLSConfig_trace_fileOnly w opts
    rw [hc] at hfile
    cases errOpt with
    | some e => simpa [hc] using hfile
    | none =>
      cases hd : d.NetDialer.asNetDialer with
      | none => simpa [hc, hd] using hfile
      | some nd => simpa [hc, hd] using hfile

/-- No error produced by `createTLSConfig` is the type-assertion error. -/
theorem createTLSConfig_error_shape (w : World) (opts : ClientOptions)
    (cfgOpt : Option TLSConfig) (e : GoErr) (tr : Trace)
    (h : createTLSConfig w opts = ((cfgOpt, some e), tr)) :
    e ≠ errTypeAssertion := by
  unfold createTLSConfig at h
  cases hr : w.readFile opts.CaCert with
  | error s =>
    rw [hr] at h
    simp only [Prod.mk.injEq, Option.some.injEq] at h
    rw [← h.1.2]
    simp [errTypeAssertion]
  | ok certBytes =>
    rw [hr] at h
    cases hp : w.appendCertsFromPEM certBytes with
    | false =>
      simp only [hp, if_false, Prod.mk.injEq, Option.some.injEq, Bool.false_eq_true] at h
      rw [← h.1.2]
      simp [errCACertificate, errTypeAssertion]
    | true =>
      simp only [hp, if_true] at h
      cases hk : w.loadX509KeyPair opts.ClientCert opts.ClientKey with
      | error s =>
        rw [hk] at h
        simp only [Prod.mk.injEq, Option.some.injEq] at h
        rw [← h.1.2]
        simp [errTypeAssertion]
      | ok u =>
        rw [hk] at h
        simp at h

/-- No error produced by the TLS step on the freshly built dialer is the
type-assertion error. -/
theorem newClientTLSStep_error_shape (w : World) (opts : ClientOptions)
    (e : GoErr) (tr0 : Trace)
    (hstep : newClientTLSStep w opts (newClientDialer opts) = (.error e, tr0)) :
    e ≠ errTypeAssertion := by
  unfold newClientTLSStep at hstep
  cases hT : opts.TLSEnabled with
  | false => rw [hT] at hstep; simp at hstep
  | true =>
    rw [hT, if_pos rfl] at hstep
    rcases hc : createTLSConfig w opts with ⟨⟨cfgOpt, errOpt⟩, tr⟩
    rw [hc] at hstep
    cases errOpt with
    | some e2 =>
      simp only [Prod.mk.injEq, Except.error.injEq] at hstep
      rw [← hstep.1]
      exact createTLSConfig_error_shape w opts cfgOpt e2 tr hc
    | none => simp [newClientDialer, DialerNet.asNetDialer] at hstep

/-- C10: in `NewClient`'s TLS branch the dialer's `NetDialer` is always the
`*net.Dialer` installed immediately before, so the type assertion to
`*net.Dialer` always succeeds and the `errTypeAssertion` branch is unreachable:
no run of the construction body ever returns `errTypeAssertion`. -/
theorem C10_typeAssertion_unreachable (w : World) (addr : String) (opts : ClientOptions) :
    isTypeAssertionErr (NewClientWith w addr opts).1 = false := by
  rcases hstep : newClientTLSStep w opts (newClientDialer opts) with ⟨res0, tr0⟩
  cases res0 with
  | error e =>
    rw [NewClientWith_tls_err w addr opts e tr0 hstep]
    have hne := newClientTLSStep_error_shape w opts e tr0 hstep
    simp [isTypeAssertionErr, hne]
  | ok dialer =>
    cases hpool : w.poolNew addr with
    | error e =>
      rw [NewClientWith_pool_err w addr opts dialer tr0 e hstep hpool]
      simp [isTypeAssertionErr, errTypeAssertion]
    | ok u =>
      cases u
      cases hsplit : splitHostPort addr with
      | error e =>
        rw [NewClientWith_split_err w addr opts dialer tr0 e hstep hpool hsplit]
        simp [isTypeAssertionErr, errTypeAssertion]
      | ok hp =>
        rcases hp with ⟨host, port⟩
        cases hcmd1 : w.poolDo ["CONFIG", "SET", "cluster-announce-ip", host] with
        | some e =>
          rw [NewClientWith_announce_err w addr host port opts dialer tr0 e hstep hpool hsplit hcmd1]
          simp [isTypeAssertionErr, errTypeAssertion]
        | none =>
          cases hacl : opts.ACLEnabled with
          | false =>
            rw [NewClientWith_ok_noacl w addr host port opts dialer tr0 hstep hpool hsplit hcmd1 hacl]
            simp [isTypeAssertionErr]
          | true =>
            cases hcmd2 : w.poolDo ["CONFIG", "SET", "masterauth", opts.Password] with
            | some e =>
              rw [NewClientWith_masterauth_err w addr host port opts dialer tr0 e hstep hpool
                hsplit hcmd1 hacl hcmd2]
              simp [isTypeAssertionErr, errTypeAssertion]
            | none =>
              rw [NewClientWith_ok_acl w addr host port opts dialer tr0 hstep hpool hsplit hcmd1
                hacl hcmd2]
              simp [isTypeAssertionErr]

/-- A predicate true on file reads extends from a file-only trace. -/
theorem fileOnly_all (tr : Trace) (p : Event → Bool) (hp : ∀ s, p (.fileRead s) = true)
    (h : tr.all Event.isFileRead = true) : tr.all p = true := by
  rw [List.all_eq_true] at h ⊢
  intro e he
  have hf := h e he
  cases e with
  | fileRead s => exact hp s
  | poolNew cfg a => simp [Event.isFileRead] at hf
  | poolDo ctx args => simp [Event.isFileRead] at hf
  | poolClose => simp [Event.isFileRead] at hf

/-- Every event in a `NewClientWith` trace is a file read, a pool construction
with the `poolCfg` literal, a pool command under the background context, or a
pool close. -/
theorem NewClientWith_trace_all (w : World) (addr : String) (opts : ClientOptions)
    (p : Event → Bool)
    (hfile : ∀ s, p (.fileRead s) = true)
    (hclose : p .poolClose = true)
    (hnew : ∀ d a, p (.poolNew (newClientPoolConfig d) a) = true)
    (hdo : ∀ args, p (.poolDo GoContext.background args) = true) :
    ((NewClientWith w addr opts).2).all p = true := by
  rcases hstep : newClientTLSStep w opts (newClientDialer opts) with ⟨res0, tr0⟩
  have htr0 : tr0.all p = true := by
    have := newClientTLSStep_trace_fileOnly w opts (newClientDialer opts)
    rw [hstep] at this
    exact fileOnly_all tr0 p hfile this
  cases res0 with
  | error e =>
    rw [NewClientWith_tls_err w addr opts e tr0 hstep]
    exact htr0
  | ok dialer =>
    cases hpool : w.poolNew addr with
    | error e =>
      rw [NewClientWith_pool_err w addr opts dialer tr0 e hstep hpool]
      simp [List.all_append, htr0, hnew]
    | ok u =>
      cases u
      cases hsplit : splitHostPort addr with
      | error e =>
        rw [NewClientWith_split_err w addr opts dialer tr0 e hstep hpool hsplit]
        simp [List.all_append, htr0, hnew, hclose]
      | ok hp2 =>
        rcases hp2 with ⟨host, port⟩
        cases hcmd1 : w.poolDo ["CONFIG", "SET", "cluster-announce-ip", host] with
        | some e =>
          rw [NewClientWith_announce_err w addr host port opts dialer tr0 e hstep hpool hsplit hcmd1]
          simp [List.all_append, htr0, hnew, hclose, hdo]
        | none =>
          cases hacl : opts.ACLEnabled with
          | false =>
            rw [NewClientWith_ok_noacl w addr host port opts dialer tr0 hstep hpool hsplit hcmd1 hacl]
            simp [List.all_append, htr0, hnew, hdo]
          | true =>
            cases hcmd2 : w.poolDo ["CONFIG", "SET", "masterauth", opts.Password] with
            | some e =>
              rw [NewClientWith_masterauth_err w addr host port opts dialer tr0 e hstep hpool
                hsplit hcmd1 hacl hcmd2]
              simp [List.all_append, htr0, hnew, hclose, hdo]
            | none =>
              rw [NewClientWith_ok_acl w addr host port opts dialer tr0 hstep hpool hsplit hcmd1
                hacl hcmd2]
              simp [List.all_append, htr0, hnew, hdo]

/-- Whether a pool-construction event used exactly the fixed configuration:
size 1, ping interval -1 (pinging disabled), reconnect backoff between 125 ms
and 4 s. Non-pool events pass trivially. -/
def poolNewHasFixedConfig : Event → Bool
  | .poolNew cfg _ =>
    cfg.Size == 1 && cfg.PingInterval == -1 &&
    cfg.MinReconnectInterval == 125 * timeMillisecond &&
    cfg.MaxReconnectInterval == 4 * timeSecond
  | _ => true

/-- C5: every pool created by `NewClient` is configured with exactly size 1,
periodic liveness pinging disabled (the -1 sentinel), a minimum reconnect
backoff of 125 ms and a maximum reconnect backoff of 4 s. -/
theorem C5_pool_configuration (w : World) (addr : String) (opts : ClientOptions) :
    ((NewClientWith w addr opts).2).all poolNewHasFixedConfig = true := by
  refine NewClientWith_trace_all w addr opts poolNewHasFixedConfig
    (fun s => rfl) rfl (fun d a => ?_) (fun args => rfl)
  simp [poolNewHasFixedConfig, newClientPoolConfig, PoolSize, PingInterval,
    MinReconnectInterval, MaxReconnectInterval]

/-- C3: the public factory `RadixV4ClientsProducer.NewClient` builds its
`ClientOptions` internally with TLS disabled, ACL disabled, empty credentials
and paths, and fixed timeouts (connect 10 s, write 1 s, read 1 s); every run is
the parameterised body at exactly those options, so no run reads TLS material
from disk and no run issues the `CONFIG SET masterauth` step: the TLS branch
and the credential-propagation step are unreachable through the public
interface, whatever the world and address. -/
theorem C3_public_factory_fixed_options :
    (NewClientDefaultOptions.TLSEnabled = false ∧
     NewClientDefaultOptions.ACLEnabled = false ∧
     NewClientDefaultOptions.CaCert = "" ∧
     NewClientDefaultOptions.ClientCert = "" ∧
     NewClientDefaultOptions.ClientKey = "" ∧
     NewClientDefaultOptions.SubjectCommonName = "" ∧
     NewClientDefaultOptions.Username = "" ∧
     NewClientDefaultOptions.Password = "" ∧
     NewClientDefaultOptions.DialConnectTimeout = 10 * timeSecond ∧
     NewClientDefaultOptions.DialWriteTimeout = 1 * timeSecond ∧
     NewClientDefaultOptions.DialReadTimeout = 1 * timeSecond) ∧
    (∀ (prod : RadixV4ClientsProducer) (w : World) (addr : String),
      prod.NewClient w addr = NewClientWith w addr NewClientDefaultOptions) ∧
    (∀ (w : World) (addr : String),
      readsFile (NewClientWith w addr NewClientDefaultOptions).2 = false ∧
      (cmdArgs (NewClientWith w addr NewClientDefaultOptions).2).all
        (fun args => !(args.take 3 == ["CONFIG", "SET", "masterauth"])) = true) := by
  refine ⟨⟨rfl, rfl, rfl, rfl, rfl, rfl, rfl, rfl, rfl, rfl, rfl⟩, fun prod w addr => rfl, ?_⟩
  intro w addr
  have hstep := newClientTLSStep_disabled w NewClientDefaultOptions
    (newClientDialer NewClientDefaultOptions) rfl
  cases hpool : w.poolNew addr with
  | error e =>
    rw [NewClientWith_pool_err w addr NewClientDefaultOptions _ [] e hstep hpool]
    simp [readsFile, cmdArgs, Event.isFileRead]
  | ok u =>
    cases u
    cases hsplit : splitHostPort addr with
    | error e =>
      rw [NewClientWith_split_err w addr NewClientDefaultOptions _ [] e hstep hpool hsplit]
      simp [readsFile, cmdArgs, Event.isFileRead]
    | ok hp2 =>
      rcases hp2 with ⟨host, port⟩
      cases hcmd1 : w.poolDo ["CONFIG", "SET", "cluster-announce-ip", host] with
      | some e =>
        rw [NewClientWith_announce_err w addr host port NewClientDefaultOptions _ [] e hstep
          hpool hsplit hcmd1]
        simp [readsFile, cmdArgs, Event.isFileRead]
      | none =>
        rw [NewClientWith_ok_noacl w addr host port NewClientDefaultOptions _ [] hstep hpool
          hsplit hcmd1 rfl]
        simp [readsFile, cmdArgs, Event.isFileRead]

/-- C4: with TLS enabled, when the CA file reads successfully but holds zero
valid PEM certificates, client construction fails with the distinct
`errCACertificate` error — which is never of the shape of the I/O-failure
error, whose message carries the offending path — and the run stops before any
network connection: its whole trace is the single CA file read, so no pool is
built and no command is issued. -/
theorem C4_untrusted_ca_material (w : World) (addr : String) (opts : ClientOptions)
    (certBytes : String)
    (hTLS : opts.TLSEnabled = true)
    (hread : w.readFile opts.CaCert = .ok certBytes)
    (hparse : w.appendCertsFromPEM certBytes = false) :
    NewClientWith w addr opts = (.error errCACertificate, [Event.fileRead opts.CaCert]) ∧
    (∀ path e2, errCACertificate ≠ GoErr.wrap ("failed to read file from " ++ path ++ ", err: ") e2) ∧
    poolBuilt (NewClientWith w addr opts).2 = false ∧
    cmdArgs (NewClientWith w addr opts).2 = [] := by
  have hc := createTLSConfig_parse_err w opts certBytes hread hparse
  have hstep := newClientTLSStep_err w opts (newClientDialer opts) none errCACertificate
    [.fileRead opts.CaCert] hTLS hc
  have hrun := NewClientWith_tls_err w addr opts errCACertificate [.fileRead opts.CaCert] hstep
  rw [hrun]
  refine ⟨rfl, fun path e2 => by simp [errCACertificate], rfl, rfl⟩

/-- Witness for C4 at a concrete world and options. -/
theorem C4_untrusted_ca_material_witness :
    NewClientWith worldParseErr "db:6379" tlsOptions =
      (.error errCACertificate, [Event.fileRead tlsOptions.CaCert]) ∧
    (∀ path e2, errCACertificate ≠ GoErr.wrap ("failed to read file from " ++ path ++ ", err: ") e2) ∧
    poolBuilt (NewClientWith worldParseErr "db:6379" tlsOptions).2 = false ∧
    cmdArgs (NewClientWith worldParseErr "db:6379" tlsOptions).2 = [] :=
  C4_untrusted_ca_material worldParseErr "db:6379" tlsOptions "PEMDATA" rfl rfl rfl

/-- C8: on `createTLSConfig`'s success path, a non-empty subject/server-name
override is installed as the configuration's `ServerName` for hostname
verification, and an empty override leaves `ServerName` at its zero value. -/
theorem C8_server_name_override (w : World) (opts : ClientOptions) (cfg : TLSConfig)
    (h : (createTLSConfig w opts).1 = (some cfg, none)) :
    (opts.SubjectCommonName ≠ "" → cfg.ServerName = opts.SubjectCommonName) ∧
    (opts.SubjectCommonName = "" → cfg.ServerName = "") := by
  cases hr : w.readFile opts.CaCert with
  | error e =>
    rw [createTLSConfig_read_err w opts e hr] at h
    simp at h
  | ok certBytes =>
    cases hp : w.appendCertsFromPEM certBytes with
    | false =>
      rw [createTLSConfig_parse_err w opts certBytes hr hp] at h
      simp at h
    | true =>
      cases hk : w.loadX509KeyPair opts.ClientCert opts.ClientKey with
      | error e =>
        rw [createTLSConfig_key_err w opts certBytes e hr hp hk] at h
        simp at h
      | ok u =>
        cases u
        rw [createTLSConfig_ok w opts certBytes hr hp hk] at h
        simp only [Prod.mk.injEq, Option.some.injEq] at h
        rw [← h.1]
        by_cases hs : opts.SubjectCommonName = "" <;> simp [hs]

/-- Witness for C8 at a concrete world with a non-empty override. -/
theorem C8_server_name_override_witness :
    (tlsOptions.SubjectCommonName ≠ "" →
      ({ RootCAs := some "PEMDATA"
         Certificates := [(tlsOptions.ClientCert, tlsOptions.ClientKey)]
         ServerName := "store.example" } : TLSConfig).ServerName = tlsOptions.SubjectCommonName) ∧
    (tlsOptions.SubjectCommonName = "" →
      ({ RootCAs := some "PEMDATA"
         Certificates := [(tlsOptions.ClientCert, tlsOptions.ClientKey)]
         ServerName := "store.example" } : TLSConfig).ServerName = "") :=
  C8_server_name_override worldOK tlsOptions
    { RootCAs := some "PEMDATA"
      Certificates := [(tlsOptions.ClientCert, tlsOptions.ClientKey)]
      ServerName := "store.example" } rfl

/-- C9: `createTLSConfig` is asymmetric on its error paths. A CA read failure
or a CA parse failure returns a nil configuration with the error; a client
certificate/key load failure returns a non-nil, partially built configuration
whose `RootCAs` is populated and which carries no client certificate, together
with the error. -/
theorem C9_asymmetric_error_paths (w : World) (opts : ClientOptions) :
    (∀ e, w.readFile opts.CaCert = .error e →
      (createTLSConfig w opts).1 =
        (none, some (.wrap ("failed to read file from " ++ opts.CaCert ++ ", err: ") (.mk e)))) ∧
    (∀ certBytes, w.readFile opts.CaCert = .ok certBytes →
      w.appendCertsFromPEM certBytes = false →
      (createTLSConfig w opts).1 = (none, some errCACertificate)) ∧
    (∀ certBytes e, w.readFile opts.CaCert = .ok certBytes →
      w.appendCertsFromPEM certBytes = true →
      w.loadX509KeyPair opts.ClientCert opts.ClientKey = .error e →
      (createTLSConfig w opts).1 =
        (some { RootCAs := some certBytes, Certificates := [], ServerName := "" },
          some (.wrap ("failed to read and parse key " ++ opts.ClientKey ++ " from " ++
            opts.ClientCert ++ ", err: ") (.mk e)))) := by
  refine ⟨fun e hr => ?_, fun certBytes hr hp => ?_, fun certBytes e hr hp hk => ?_⟩
  · rw [createTLSConfig_read_err w opts e hr]
  · rw [createTLSConfig_parse_err w opts certBytes hr hp]
  · rw [createTLSConfig_key_err w opts certBytes e hr hp hk]

/-- Witness for C9: the key-load-failure branch at a concrete world returns a
partially built configuration, and the read-failure branch a nil one. -/
theorem C9_asymmetric_error_paths_witness :
    (createTLSConfig worldKeyErr tlsOptions).1 =
      (some { RootCAs := some "PEMDATA", Certificates := [], ServerName := "" },
        some (.wrap ("failed to read and parse key " ++ tlsOptions.ClientKey ++ " from " ++
          tlsOptions.ClientCert ++ ", err: ") (.mk "tls: failed to find any PEM data"))) ∧
    (createTLSConfig worldReadErr tlsOptions).1 =
      (none, some (.wrap ("failed to read file from " ++ tlsOptions.CaCert ++ ", err: ")
        (.mk ("open " ++ tlsOptions.CaCert ++ ": no such file or directory")))) :=
  ⟨(C9_asymmetric_error_paths worldKeyErr tlsOptions).2.2 "PEMDATA"
      "tls: failed to find any PEM data" rfl rfl rfl,
    (C9_asymmetric_error_paths worldReadErr tlsOptions).1
      ("open " ++ tlsOptions.CaCert ++ ": no such file or directory") rfl⟩

/-- C7 (amended): for every Client and action, if the underlying pool
operation fails, `Do` returns an error wrapping the underlying error together
with the textual form of the attempted action; if it succeeds, `Do` returns
nil. `Do` never closes the Client and never panics (it is a total function),
and the single pool call it makes runs under the process-wide background
context, which carries no deadline. -/
theorem C7_do_error_wrapping (w : World) (c : Client) (a : Action) :
    (∀ e, w.poolDo a.args = some e →
      (Client.Do w c a).1 =
        some (.wrap ("failed to perform action " ++ a.text ++ ", err: ") (.mk e))) ∧
    (w.poolDo a.args = none → (Client.Do w c a).1 = none) ∧
    poolClosed (Client.Do w c a).2 = false ∧
    (Client.Do w c a).2 = [Event.poolDo GoContext.background a.args] ∧
    GoContext.isBounded GoContext.background = false := by
  refine ⟨fun e h => ?_, fun h => ?_, ?_, rfl, rfl⟩
  · simp [Client.Do, h]
  · simp [Client.Do, h]
  · simp [Client.Do, poolClosed]

/-- Witness for C7's amended theorem: a concrete failing command is wrapped
with the action's textual form. -/
theorem C7_do_error_wrapping_witness :
    (Client.Do worldFailDo demoClient (radixCmd ["PING"])).1 =
      some (.wrap ("failed to perform action " ++ (radixCmd ["PING"]).text ++ ", err: ")
        (.mk "boom")) :=
  (C7_do_error_wrapping worldFailDo demoClient (radixCmd ["PING"])).1 "boom" rfl

/-- Counterexample to C7 as stated: `Do` does not execute within a bounded
context. The one pool call it makes runs under `context.Background()`, which
has no deadline, so the context bounding the operation is unbounded. -/
theorem C7_counterexample_unbounded_context :
    (Client.Do worldOK demoClient (radixCmd ["PING"])).2 =
      [Event.poolDo GoContext.background ["PING"]] ∧
    GoContext.isBounded GoContext.background = false :=
  ⟨rfl, rfl⟩

/-- C2: when pool construction succeeds but host/port splitting of the address
fails, the public `NewClient` closes the already-created pool, returns an error
wrapping the split failure, and issues zero administrative commands. -/
theorem C2_malformed_address (w : World) (addr e : String) (prod : RadixV4ClientsProducer)
    (hpool : w.poolNew addr = .ok ())
    (hsplit : splitHostPort addr = .error e) :
    (prod.NewClient w addr).1 =
      .error (.wrap "failed split address, closing client connection, err:" (.mk e)) ∧
    poolClosed (prod.NewClient w addr).2 = true ∧
    cmdArgs (prod.NewClient w addr).2 = [] := by
  have hstep := newClientTLSStep_disabled w NewClientDefaultOptions
    (newClientDialer NewClientDefaultOptions) rfl
  have hrun := NewClientWith_split_err w addr NewClientDefaultOptions
    (newClientDialer NewClientDefaultOptions) [] e hstep hpool hsplit
  simp only [RadixV4ClientsProducer.NewClient]
  rw [hrun]
  exact ⟨rfl, rfl, rfl⟩

/-- Witness for C2 at the spec's concrete malformed address. -/
theorem C2_malformed_address_witness :
    (RadixV4ClientsProducer.NewClient ⟨⟩ worldOK "not-an-address").1 =
      .error (.wrap "failed split address, closing client connection, err:"
        (.mk "address not-an-address: missing port in address")) ∧
    poolClosed (RadixV4ClientsProducer.NewClient ⟨⟩ worldOK "not-an-address").2 = true ∧
    cmdArgs (RadixV4ClientsProducer.NewClient ⟨⟩ worldOK "not-an-address").2 = [] :=
  C2_malformed_address worldOK "not-an-address"
    "address not-an-address: missing port in address" ⟨⟩ rfl rfl

/-- C6: in every successful run of client construction, the administrative
commands issued are exactly `CONFIG SET cluster-announce-ip <host>` — with
`<host>` the host part of the dial address — followed, only when ACL is
enabled, by `CONFIG SET masterauth <password>`; the announcement always comes
first. -/
theorem C6_admin_command_sequence (w : World) (addr host port : String)
    (opts : ClientOptions) (c : Client)
    (hok : (NewClientWith w addr opts).1 = .ok c)
    (hsplit : splitHostPort addr = .ok (host, port)) :
    cmdArgs (NewClientWith w addr opts).2 =
      ["CONFIG", "SET", "cluster-announce-ip", host] ::
        (if opts.ACLEnabled then [["CONFIG", "SET", "masterauth", opts.Password]] else []) := by
  rcases hstep : newClientTLSStep w opts (newClientDialer opts) with ⟨res0, tr0⟩
  have htr0 : cmdArgs tr0 = [] := by
    have hf := newClientTLSStep_trace_fileOnly w opts (newClientDialer opts)
    rw [hstep] at hf
    exact (fileOnly_trace_facts tr0 hf).1
  cases res0 with
  | error e =>
    rw [NewClientWith_tls_err w addr opts e tr0 hstep] at hok
    simp at hok
  | ok dialer =>
    cases hpool : w.poolNew addr with
    | error e =>
      rw [NewClientWith_pool_err w addr opts dialer tr0 e hstep hpool] at hok
      simp at hok
    | ok u =>
      cases u
      cases hcmd1 : w.poolDo ["CONFIG", "SET", "cluster-announce-ip", host] with
      | some e =>
        rw [NewClientWith_announce_err w addr host port opts dialer tr0 e hstep hpool hsplit
          hcmd1] at hok
        simp at hok
      | none =>
        cases hacl : opts.ACLEnabled with
        | false =>
          rw [NewClientWith_ok_noacl w addr host port opts dialer tr0 hstep hpool hsplit
            hcmd1 hacl]
          simp only [cmdArgs] at htr0 ⊢
          simp [List.filterMap_append, htr0, hacl]
        | true =>
          cases hcmd2 : w.poolDo ["CONFIG", "SET", "masterauth", opts.Password] with
          | some e =>
            rw [NewClientWith_masterauth_err w addr host port opts dialer tr0 e hstep hpool
              hsplit hcmd1 hacl hcmd2] at hok
            simp at hok
          | none =>
            rw [NewClientWith_ok_acl w addr host port opts dialer tr0 hstep hpool hsplit
              hcmd1 hacl hcmd2]
            simp only [cmdArgs] at htr0 ⊢
            simp [List.filterMap_append, htr0, hacl]

/-- Witness for C6: a successful ACL-enabled run issues exactly the
announcement followed by the `masterauth` propagation. -/
theorem C6_admin_command_sequence_witness :
    cmdArgs (NewClientWith worldOK "db:6379"
        { NewClientDefaultOptions with ACLEnabled := true, Password := "pw" }).2 =
      ["CONFIG", "SET", "cluster-announce-ip", "db"] ::
        (if ({ NewClientDefaultOptions with
                ACLEnabled := true, Password := "pw" } : ClientOptions).ACLEnabled then
          [["CONFIG", "SET", "masterauth",
            ({ NewClientDefaultOptions with
                ACLEnabled := true, Password := "pw" } : ClientOptions).Password]]
        else []) :=
  C6_admin_command_sequence worldOK "db:6379" "db" "6379"
    { NewClientDefaultOptions with ACLEnabled := true, Password := "pw" }
    ⟨⟨newClientPoolConfig (newClientDialer
        { NewClientDefaultOptions with ACLEnabled := true, Password := "pw" }), "db:6379"⟩⟩
    rfl rfl

/-- C1: whenever the pool gets built and any gated administrative step fails —
the `cluster-announce-ip` command, or, when ACL is enabled, the `masterauth`
command — client construction returns an error and the pool is closed; and a
non-error Client is returned only when every gated administrative step
succeeded. -/
theorem C1_handshake_rollback (w : World) (addr host port : String) (opts : ClientOptions)
    (hpool : w.poolNew addr = .ok ())
    (hsplit : splitHostPort addr = .ok (host, port))
    (hbuilt : poolBuilt (NewClientWith w addr opts).2 = true) :
    ((w.poolDo ["CONFIG", "SET", "cluster-announce-ip", host] ≠ none ∨
      (opts.ACLEnabled = true ∧ w.poolDo ["CONFIG", "SET", "masterauth", opts.Password] ≠ none)) →
      resultOk (NewClientWith w addr opts).1 = false ∧
      poolClosed (NewClientWith w addr opts).2 = true) ∧
    (resultOk (NewClientWith w addr opts).1 = true →
      w.poolDo ["CONFIG", "SET", "cluster-announce-ip", host] = none ∧
      (opts.ACLEnabled = true → w.poolDo ["CONFIG", "SET", "masterauth", opts.Password] = none)) := by
  rcases hstep : newClientTLSStep w opts (newClientDialer opts) with ⟨res0, tr0⟩
  have hf := newClientTLSStep_trace_fileOnly w opts (newClientDialer opts)
  rw [hstep] at hf
  cases res0 with
  | error e =>
    rw [NewClientWith_tls_err w addr opts e tr0 hstep] at hbuilt
    rw [(fileOnly_trace_facts tr0 hf).2.1] at hbuilt
    simp at hbuilt
  | ok dialer =>
    cases hcmd1 : w.poolDo ["CONFIG", "SET", "cluster-announce-ip", host] with
    | some e =>
      rw [NewClientWith_announce_err w addr host port opts dialer tr0 e hstep hpool hsplit hcmd1]
      refine ⟨fun _ => ⟨rfl, ?_⟩, fun hok => by simp [resultOk] at hok⟩
      simp [poolClosed, List.any_append]
    | none =>
      cases hacl : opts.ACLEnabled with
      | false =>
        rw [NewClientWith_ok_noacl w addr host port opts dialer tr0 hstep hpool hsplit hcmd1 hacl]
        refine ⟨fun hant => ?_, fun _ => ⟨rfl, fun hc => by simp at hc⟩⟩
        rcases hant with h | ⟨hc, _⟩
        · exact absurd rfl h
        · simp at hc
      | true =>
        cases hcmd2 : w.poolDo ["CONFIG", "SET", "masterauth", opts.Password] with
        | some e =>
          rw [NewClientWith_masterauth_err w addr host port opts dialer tr0 e hstep hpool hsplit
            hcmd1 hacl hcmd2]
          refine ⟨fun _ => ⟨rfl, ?_⟩, fun hok => by simp [resultOk] at hok⟩
          simp [poolClosed, List.any_append]
        | none =>
          rw [NewClientWith_ok_acl w addr host port opts dialer tr0 hstep hpool hsplit hcmd1
            hacl hcmd2]
          refine ⟨fun hant => ?_, fun _ => ⟨rfl, fun _ => rfl⟩⟩
          rcases hant with h | ⟨_, h⟩
          · exact absurd rfl h
          · exact absurd rfl h

/-- Witness for C1 at a world whose announcement command fails remotely. -/
theorem C1_handshake_rollback_witness :
    resultOk (NewClientWith worldFailDo "db:6379" NewClientDefaultOptions).1 = false ∧
    poolClosed (NewClientWith worldFailDo "db:6379" NewClientDefaultOptions).2 = true :=
  (C1_handshake_rollback worldFailDo "db:6379" "db" "6379" NewClientDefaultOptions
      rfl rfl rfl).1 (Or.inl (by decide))

end RedisGolang
